import Mathlib

/-!
Verification development for the webcloud repository.

The repository consists of three source artifacts:
1. a GitHub Actions workflow (Visual Regression Test) triggered by
   deployment_status events, gated on state == "success", with three steps
   (checkout, npm install, Percy screenshot test);
2. a react-fela presentational component Card (src/components/card.js);
3. a markdown article whose embedded JavaScript snippets define a global
   window.__setTheme function mutating document root style and, in a later
   revision, persisting the theme name to localStorage.

Each artifact is shallowly embedded below, translated directly from the
source, and the specification claims are settled against the embedding.
-/

/-! ## CI workflow embedding (src/unnamed/part_000)

The workflow file:

  name: Visual Regression Test
  on: deployment_status
  jobs:
    build:
      if: github.event.deployment_status.state == 'success'
      runs-on: ubuntu-latest
      steps:
        - name: Checkout
          uses: actions/checkout@v1.0.0
        - name: Install
          run: npm install
        - name: Percy Test
          uses: percy/exec-action@v0.3.0
          with:
            command: "node test/snapshots.js"
            verbose: true
          env:
            PERCY_TOKEN: from secrets.PERCY_TOKEN
            DEPLOY_URL: github.event.deployment_status.target_url
-/

/-- The payload of a deployment_status event, restricted to the fields the
workflow reads: the state of the deployment and its target URL. -/
structure DeploymentStatusEvent where
  state : String
  target_url : String
  deriving DecidableEq, Repr

/-- One step of a GitHub Actions job, with the fields this workflow uses.
GitHub Actions steps also admit a continue-on-error flag, which defaults to
false when absent; the workflow file never sets it, so every embedded step
carries the default. -/
structure Step where
  name : String
  uses : Option String
  run : Option String
  withCommand : Option String
  withVerbose : Option Bool
  env : List (String × String)
  continueOnError : Bool
  deriving DecidableEq, Repr

/-- The Checkout step: uses actions/checkout@v1.0.0, no run command, no env. -/
def checkoutStep : Step :=
  { name := "Checkout"
    uses := some "actions/checkout@v1.0.0"
    run := none
    withCommand := none
    withVerbose := none
    env := []
    continueOnError := false }

/-- The Install step: run command npm install, no env. -/
def installStep : Step :=
  { name := "Install"
    uses := none
    run := some "npm install"
    withCommand := none
    withVerbose := none
    env := []
    continueOnError := false }

/-- The Percy Test step: uses percy/exec-action@v0.3.0 with the command
node test/snapshots.js, verbose true, and two environment entries: the
PERCY_TOKEN repository secret and the DEPLOY_URL taken from the event's
target_url field. -/
def percyStep (percyToken targetUrl : String) : Step :=
  { name := "Percy Test"
    uses := some "percy/exec-action@v0.3.0"
    run := none
    withCommand := some "node test/snapshots.js"
    withVerbose := some true
    env := [("PERCY_TOKEN", percyToken), ("DEPLOY_URL", targetUrl)]
    continueOnError := false }

/-- The ordered step list of the build job, as written in the workflow file.
It depends on the PERCY_TOKEN secret and on the triggering event (whose
target_url feeds DEPLOY_URL). -/
def buildSteps (percyToken : String) (e : DeploymentStatusEvent) : List Step :=
  [checkoutStep, installStep, percyStep percyToken e.target_url]

/-- The if-condition of the build job:
github.event.deployment_status.state == 'success'. -/
def jobTriggers (e : DeploymentStatusEvent) : Bool :=
  e.state == "success"

/-- GitHub Actions step semantics: steps run in listed order; each step's
outcome (true = zero exit, false = non-zero exit) is given by the
environment. A failing step stops the job with a failed result unless its
continue-on-error flag is set, in which case execution proceeds and the
job result ignores that failure. Returns the list of steps that actually
executed, in order, together with the job's success flag. -/
def execSteps : List Step → (Step → Bool) → List Step × Bool
  | [], _ => ([], true)
  | s :: rest, outcome =>
    if outcome s then
      let r := execSteps rest outcome
      (s :: r.fst, r.snd)
    else if s.continueOnError then
      let r := execSteps rest outcome
      (s :: r.fst, r.snd)
    else
      ([s], false)

/-- A run of the workflow on one deployment_status event: the build job's
steps execute only when the if-condition holds; otherwise nothing runs. -/
def runJob (percyToken : String) (e : DeploymentStatusEvent)
    (outcome : Step → Bool) : List Step × Bool :=
  if jobTriggers e then execSteps (buildSteps percyToken e) outcome
  else ([], true)

/-- When a job has at least one step, executing it runs at least one step,
whatever the outcomes. -/
theorem execSteps_cons_ne_nil (s : Step) (rest : List Step)
    (outcome : Step → Bool) :
    (execSteps (s :: rest) outcome).fst ≠ [] := by
  simp only [execSteps]
  split
  · simp
  · split <;> simp

/-- C1: the build job runs (executes at least one step) exactly when the
triggering deployment-status event has state "success", and never runs for
any event whose state is anything else. -/
theorem build_job_gated_on_success (percyToken : String)
    (e : DeploymentStatusEvent) (outcome : Step → Bool) :
    (runJob percyToken e outcome).fst ≠ [] ↔ e.state = "success" := by
  by_cases h : e.state = "success"
  · simpa [runJob, jobTriggers, h, buildSteps] using
      execSteps_cons_ne_nil checkoutStep
        [installStep, percyStep percyToken e.target_url] outcome
  · simp [runJob, jobTriggers, h]

/-- C2: when the build job runs (state "success") and every step exits
zero, the executed steps are exactly, in order: the checkout of the
repository via actions/checkout, the dependency install running
npm install, and the Percy screenshot test via percy/exec-action running
node test/snapshots.js. -/
theorem build_job_steps_in_order (percyToken : String)
    (e : DeploymentStatusEvent) (h : e.state = "success") :
    runJob percyToken e (fun _ => true) =
      ([checkoutStep, installStep, percyStep percyToken e.target_url], true)
    ∧ checkoutStep.uses = some "actions/checkout@v1.0.0"
    ∧ installStep.run = some "npm install"
    ∧ (percyStep percyToken e.target_url).uses = some "percy/exec-action@v0.3.0"
    ∧ (percyStep percyToken e.target_url).withCommand
        = some "node test/snapshots.js" := by
  refine ⟨?_, rfl, rfl, rfl, rfl⟩
  simp [runJob, jobTriggers, h, buildSteps, execSteps]

/-- Witness for C2 at the concrete event with state "success". -/
theorem build_job_steps_in_order_witness :
    runJob "token0" ⟨"success", "https://example.com"⟩ (fun _ => true) =
      ([checkoutStep, installStep, percyStep "token0" "https://example.com"],
        true) := by
  exact (build_job_steps_in_order "token0" ⟨"success", "https://example.com"⟩
    rfl).1

/-- The environment entries declared across all steps of the build job. -/
def jobEnv (percyToken : String) (e : DeploymentStatusEvent) :
    List (String × String) :=
  ((buildSteps percyToken e).map Step.env).flatten

/-- C3: the environment inputs of the build job are exactly two:
PERCY_TOKEN bound to the repository secret, and DEPLOY_URL bound to the
target_url field of the triggering deployment-status event. -/
theorem job_env_exactly_two (percyToken : String)
    (e : DeploymentStatusEvent) :
    jobEnv percyToken e =
      [("PERCY_TOKEN", percyToken), ("DEPLOY_URL", e.target_url)] := by
  simp [jobEnv, buildSteps, checkoutStep, installStep, percyStep]

/-- The Checkout step keeps the continue-on-error default. -/
theorem checkoutStep_continueOnError : checkoutStep.continueOnError = false :=
  rfl

/-- The Install step keeps the continue-on-error default. -/
theorem installStep_continueOnError : installStep.continueOnError = false :=
  rfl

/-- The Percy Test step keeps the continue-on-error default. -/
theorem percyStep_continueOnError (percyToken targetUrl : String) :
    (percyStep percyToken targetUrl).continueOnError = false :=
  rfl

/-- C9: the steps are strictly sequential and short-circuit on failure:
if the Install step exits non-zero, the Percy Test step never executes in
that run. -/
theorem percy_skipped_when_install_fails (percyToken : String)
    (e : DeploymentStatusEvent) (outcome : Step → Bool)
    (h : outcome installStep = false) :
    percyStep percyToken e.target_url ∉ (runJob percyToken e outcome).fst := by
  have hpc : percyStep percyToken e.target_url ≠ checkoutStep := by
    intro hx
    have := congrArg Step.name hx
    simp [percyStep, checkoutStep] at this
  have hpi : percyStep percyToken e.target_url ≠ installStep := by
    intro hx
    have := congrArg Step.name hx
    simp [percyStep, installStep] at this
  by_cases ht : jobTriggers e
  · cases hc : outcome checkoutStep <;>
      simp [runJob, ht, buildSteps, execSteps, hc, h,
        checkoutStep_continueOnError, installStep_continueOnError, hpc, hpi]
  · simp [runJob, ht]

/-- Witness for C9: with an outcome where Install fails, the Percy step is
absent from the executed list. -/
theorem percy_skipped_when_install_fails_witness :
    (fun s => !(s.name == "Install")) installStep = false
    ∧ percyStep "token0" "https://example.com" ∉
        (runJob "token0" ⟨"success", "https://example.com"⟩
          (fun s => !(s.name == "Install"))).fst := by
  refine ⟨by decide, ?_⟩
  exact percy_skipped_when_install_fails "token0"
    ⟨"success", "https://example.com"⟩ (fun s => !(s.name == "Install"))
    (by decide)

/-- C4 (amended): the workflow fails exactly when one of the steps that
actually executed exited non-zero — which can be the Checkout step as well
as the Install or Percy Test step — and it has no retry, recovery, or
partial-failure handling: every step keeps the continue-on-error default
of false, and only the three declared steps can ever execute. -/
theorem job_failure_semantics_amended (percyToken : String)
    (e : DeploymentStatusEvent) (outcome : Step → Bool) :
    ((runJob percyToken e outcome).snd = false ↔
      ∃ s ∈ (runJob percyToken e outcome).fst, outcome s = false)
    ∧ (∀ s ∈ buildSteps percyToken e, s.continueOnError = false)
    ∧ (∀ s ∈ (runJob percyToken e outcome).fst,
        s ∈ buildSteps percyToken e) := by
  refine ⟨?_, ?_, ?_⟩
  · by_cases ht : jobTriggers e
    · cases hc : outcome checkoutStep <;>
        cases hi : outcome installStep <;>
          cases hp : outcome (percyStep percyToken e.target_url) <;>
            simp [runJob, ht, buildSteps, execSteps, hc, hi, hp,
              checkoutStep_continueOnError, installStep_continueOnError,
              percyStep_continueOnError]
    · simp [runJob, ht]
  · intro s hs
    simp only [buildSteps, List.mem_cons, List.not_mem_nil, or_false] at hs
    rcases hs with h | h | h <;> subst h <;> rfl
  · intro s hs
    by_cases ht : jobTriggers e
    · cases hc : outcome checkoutStep <;>
        cases hi : outcome installStep <;>
          cases hp : outcome (percyStep percyToken e.target_url) <;>
            simp [runJob, ht, buildSteps, execSteps, hc, hi, hp,
              checkoutStep_continueOnError, installStep_continueOnError,
              percyStep_continueOnError] at hs ⊢ <;> tauto
    · simp [runJob, ht] at hs

/-- C4 counterexample: a run on a successful deployment in which the
Checkout step exits non-zero. The pipeline run fails although neither the
Install step nor the Percy Test step exited non-zero (neither ever
executed), so a checkout failure is a further failure mode beyond the two
the claim allows. -/
theorem job_fails_without_install_or_test_failure :
    (runJob "token0" ⟨"success", "https://example.com"⟩
        (fun s => !(s.name == "Checkout"))).snd = false
    ∧ (fun s : Step => !(s.name == "Checkout")) installStep = true
    ∧ (fun s : Step => !(s.name == "Checkout"))
        (percyStep "token0" "https://example.com") = true
    ∧ installStep ∉ (runJob "token0" ⟨"success", "https://example.com"⟩
        (fun s => !(s.name == "Checkout"))).fst
    ∧ percyStep "token0" "https://example.com" ∉
        (runJob "token0" ⟨"success", "https://example.com"⟩
          (fun s => !(s.name == "Checkout"))).fst := by
  decide

/-! ## Card component embedding (src/components/card.js)

The source file pulls createComponent from react-fela and defines:

  export const Card = createComponent(
    {
      padding: "32px 16px",
      flexDirection: "column",
      display: "flex",
      background: "var(--color-bg-alt)",
      boxShadow: "var(--shadow)"
    },
    "div"
  );
-/

/-- A react-fela style rule: either a static declaration object, as in
card.js, or a function computing declarations from the props. -/
inductive FelaRule (Props : Type) : Type where
  | static : List (String × String) → FelaRule Props
  | dynamic : (Props → List (String × String)) → FelaRule Props

/-- Resolving a rule against the props of one render: a static rule yields
its declarations unchanged, a dynamic rule applies its function. -/
def FelaRule.resolve {Props : Type} :
    FelaRule Props → Props → List (String × String)
  | .static decls, _ => decls
  | .dynamic f, props => f props

/-- The output of rendering a fela component once: the host element tag,
the resolved CSS declarations, and the children passed through. -/
structure RenderedNode (Child : Type) where
  element : String
  style : List (String × String)
  children : Child
  deriving Repr

/-- A fela component as produced by createComponent: a style rule plus the
host element it renders to. -/
structure FelaComponent (Props : Type) where
  rule : FelaRule Props
  element : String

/-- The react-fela createComponent factory: packages a rule and a host
element tag into a component. -/
def createComponent {Props : Type} (rule : FelaRule Props)
    (element : String) : FelaComponent Props :=
  { rule := rule, element := element }

/-- Rendering a fela component with some props and children: the host
element carries the rule's declarations resolved against the props, and
the children are passed through unchanged. -/
def FelaComponent.render {Props Child : Type} (comp : FelaComponent Props)
    (props : Props) (children : Child) : RenderedNode Child :=
  { element := comp.element
    style := comp.rule.resolve props
    children := children }

/-- The style object literal of card.js, in source order. -/
def cardStyle : List (String × String) :=
  [("padding", "32px 16px"),
   ("flexDirection", "column"),
   ("display", "flex"),
   ("background", "var(--color-bg-alt)"),
   ("boxShadow", "var(--shadow)")]

/-- The Card component: createComponent applied to the static style object
and the host element "div". Card declares no props of its own, so the
props type is an arbitrary parameter. -/
def Card {Props : Type} : FelaComponent Props :=
  createComponent (FelaRule.static cardStyle) "div"

/-- C5: every render of Card produces a div element whose declared style
is exactly the fixed declaration list of card.js: padding 32px 16px, flex
column layout (flexDirection column with display flex), background
var(--color-bg-alt) and boxShadow var(--shadow). -/
theorem card_renders_div_with_fixed_styles (Props Child : Type)
    (props : Props) (children : Child) :
    ((Card.render props children).element = "div")
    ∧ (Card.render props children).style =
        [("padding", "32px 16px"),
         ("flexDirection", "column"),
         ("display", "flex"),
         ("background", "var(--color-bg-alt)"),
         ("boxShadow", "var(--shadow)")] :=
  ⟨rfl, rfl⟩

/-- C6: rendering Card is a pure function of its children alone: any two
renders with arbitrary props, even of different types, yield the same
rendered node, and the children are passed through unchanged. -/
theorem card_render_pure_in_children (P1 P2 Child : Type)
    (p1 : P1) (p2 : P2) (children : Child) :
    Card.render p1 children = Card.render p2 children
    ∧ (Card.render p1 children).children = children :=
  ⟨rfl, rfl⟩

/-- C10: the declared CSS of Card is deterministic and input-independent:
for any two prop values the resolved declarations coincide, and the
declared property names are the identical fixed five. -/
theorem card_style_deterministic (Props : Type) (p1 p2 : Props) :
    (Card.rule.resolve p1 = Card.rule.resolve p2)
    ∧ (Card.rule.resolve p1).map Prod.fst =
        ["padding", "flexDirection", "display", "background", "boxShadow"] :=
  ⟨rfl, rfl⟩

/-! ## Article snippet embedding (src/unnamed/part_001)

The article quotes render-blocking JavaScript placed in the page head:

  var themes = {
    light: { "color-fg": "#000", "color-bg": "#fff" },
    dark:  { "color-fg": "#000", "color-bg": "#fff" }
  };
  var root = document.documentElement.style;
  window.__setTheme = function(themeName) {
    var theme = themes[themeName];
    Object.keys(theme).forEach(function(key) {
      root.setProperty("--" + key, theme[key]);
    });
  }

and a later revision that persists the choice:

  window.__setTheme(themeName) {
    window.localStorage.setItem("themeName", themeName);
    ...
  }

The browser-global state the snippets touch is the custom-property map on
the document root element (lost when the page session ends) and
localStorage (which outlives page sessions). Indexing themes with an
unknown name makes Object.keys throw, so the embedded function returns
none in that case. The window.__onSetTheme callback defaults to a no-op
and is omitted. -/

/-- The themes object of the article snippet, in source order. The article
lists identical values under both names. -/
def themes : List (String × List (String × String)) :=
  [("light", [("color-fg", "#000"), ("color-bg", "#fff")]),
   ("dark", [("color-fg", "#000"), ("color-bg", "#fff")])]

/-- The browser-global state the snippets read and write: the custom
properties set on the document root element, and localStorage. -/
structure BrowserState where
  rootStyle : List (String × String)
  localStorage : List (String × String)
  deriving DecidableEq, Repr

/-- CSSStyleDeclaration.setProperty / localStorage.setItem on the
association-list model: overwrite the first binding of the key in place,
or append a new binding. -/
def setProperty : List (String × String) → String → String →
    List (String × String)
  | [], key, value => [(key, value)]
  | (k, v) :: rest, key, value =>
    if k == key then (key, value) :: rest
    else (k, v) :: setProperty rest key value

/-- Reading a key from the association-list model. -/
def lookupVal : List (String × String) → String → Option String
  | [], _ => none
  | (k, v) :: rest, key => if k == key then some v else lookupVal rest key

/-- The window.__setTheme snippet: look the name up in themes and write
each of the theme's pairs as a custom property --key on the global
document root style. Unknown names throw in JavaScript, modelled as none. -/
def setTheme (themeName : String) (s : BrowserState) : Option BrowserState :=
  match themes.find? (fun t => t.fst == themeName) with
  | none => none
  | some t =>
    some { s with
      rootStyle := t.snd.foldl
        (fun st kv => setProperty st ("--" ++ kv.fst) kv.snd) s.rootStyle }

/-- The persisting revision of window.__setTheme: first store the chosen
name under the localStorage key themeName, then proceed as before. -/
def setThemePersist (themeName : String) (s : BrowserState) :
    Option BrowserState :=
  setTheme themeName
    { s with localStorage := setProperty s.localStorage "themeName" themeName }

/-- Writing a key and then reading it back yields the written value. -/
theorem lookupVal_setProperty_self (st : List (String × String))
    (key value : String) :
    lookupVal (setProperty st key value) key = some value := by
  induction st with
  | nil => simp [setProperty, lookupVal]
  | cons hd tl ih =>
    obtain ⟨k, v⟩ := hd
    by_cases h : k == key
    · simp [setProperty, lookupVal, h]
    · simp [setProperty, lookupVal, h, ih]

/-- Writing one key leaves every other key unchanged. -/
theorem lookupVal_setProperty_of_ne (st : List (String × String))
    (key value other : String) (h : other ≠ key) :
    lookupVal (setProperty st key value) other = lookupVal st other := by
  induction st with
  | nil => simp [setProperty, lookupVal, Ne.symm h]
  | cons hd tl ih =>
    obtain ⟨k, v⟩ := hd
    by_cases hk : k == key
    · have hkey : k = key := by simpa using hk
      subst hkey
      simp [setProperty, lookupVal, Ne.symm h]
    · simp [setProperty, lookupVal, hk, ih]

/-- C7 (amended): the repository's executable artifacts hold no
concurrency, locking, or cancellation constructs, but a global mutable
state pattern does appear in a source file: the article's
window.__setTheme snippet writes the selected theme's custom properties
into the shared document root style, whatever that global state held
before. Shown here for the dark theme. -/
theorem setTheme_writes_global_root_style (s t : BrowserState)
    (h : setTheme "dark" s = some t) :
    lookupVal t.rootStyle "--color-fg" = some "#000"
    ∧ lookupVal t.rootStyle "--color-bg" = some "#fff" := by
  have hs : setTheme "dark" s =
      some { s with
             rootStyle :=
               setProperty (setProperty s.rootStyle "--color-fg" "#000")
                 "--color-bg" "#fff" } := rfl
  obtain rfl := Option.some.inj (hs.symm.trans h)
  refine ⟨?_, ?_⟩
  · exact (lookupVal_setProperty_of_ne
      (setProperty s.rootStyle "--color-fg" "#000") "--color-bg" "#fff"
      "--color-fg" (by decide)).trans
      (lookupVal_setProperty_self s.rootStyle "--color-fg" "#000")
  · exact lookupVal_setProperty_self
      (setProperty s.rootStyle "--color-fg" "#000") "--color-bg" "#fff"

/-- Witness for the amended C7 at the empty browser state. -/
theorem setTheme_writes_global_root_style_witness :
    lookupVal (BrowserState.mk
        [("--color-fg", "#000"), ("--color-bg", "#fff")] []).rootStyle
      "--color-fg" = some "#000"
    ∧ lookupVal (BrowserState.mk
        [("--color-fg", "#000"), ("--color-bg", "#fff")] []).rootStyle
      "--color-bg" = some "#fff" :=
  setTheme_writes_global_root_style ⟨[], []⟩
    ⟨[("--color-fg", "#000"), ("--color-bg", "#fff")], []⟩ (by decide)

/-- C7 counterexample: the window.__setTheme snippet of the article source
file mutates shared global state: run on a browser state with an empty
document root style, it returns a state whose root style differs, so a
global mutable state pattern does appear in a source file. -/
theorem setTheme_mutates_global_state :
    setTheme "dark" ⟨[], []⟩ =
      some ⟨[("--color-fg", "#000"), ("--color-bg", "#fff")], []⟩
    ∧ (BrowserState.mk [("--color-fg", "#000"), ("--color-bg", "#fff")]
        []).rootStyle ≠ (BrowserState.mk [] []).rootStyle := by
  decide

/-- C8 (amended): the repository's own code defines no CLI, wire protocol,
or file format, but one snippet in the article source file does write
state that outlives a page session: the persisting revision of
window.__setTheme stores the chosen theme name in localStorage under the
key themeName. -/
theorem setThemePersist_writes_localStorage (themeName : String)
    (s t : BrowserState) (h : setThemePersist themeName s = some t) :
    lookupVal t.localStorage "themeName" = some themeName := by
  unfold setThemePersist setTheme at h
  cases hfind : themes.find? (fun th => th.fst == themeName) with
  | none =>
    rw [hfind] at h
    simp at h
  | some th =>
    rw [hfind] at h
    obtain rfl := Option.some.inj h
    exact lookupVal_setProperty_self s.localStorage "themeName" themeName

/-- Witness for the amended C8 at the empty browser state. -/
theorem setThemePersist_writes_localStorage_witness :
    lookupVal (BrowserState.mk
        [("--color-fg", "#000"), ("--color-bg", "#fff")]
        [("themeName", "dark")]).localStorage
      "themeName" = some "dark" :=
  setThemePersist_writes_localStorage "dark" ⟨[], []⟩
    ⟨[("--color-fg", "#000"), ("--color-bg", "#fff")],
      [("themeName", "dark")]⟩ (by decide)

/-- C8 counterexample: the article's persistence snippet writes state that
outlives a page session: starting from empty localStorage, it leaves the
binding themeName -> dark in localStorage, which persists across page
sessions. -/
theorem setThemePersist_survives_session :
    setThemePersist "dark" ⟨[], []⟩ =
      some ⟨[("--color-fg", "#000"), ("--color-bg", "#fff")],
        [("themeName", "dark")]⟩
    ∧ (BrowserState.mk [("--color-fg", "#000"), ("--color-bg", "#fff")]
        [("themeName", "dark")]).localStorage ≠
      (BrowserState.mk [] []).localStorage := by
  decide
